import Mathlib

/-!
Verification of the Cortex-M7 emulator core against its specification.

The definitions below are shallow embeddings of the Python source:
machine words are Nat with explicit masking (the source masks with
0xFFFFFFFF and friends), fallible operations return Option, and the
mutable objects (register file, exception manager, machine) become
structures threaded through pure functions.  Each definition carries the
name of the source function it embeds (src/cpu/alu.py, registers.py,
exceptions.py, cortex_m7.py, src/crypto/otfdec.py, src/memory/bus.py,
sram.py).
-/

set_option maxRecDepth 4000

/- =====================================================================
   ALU primitives (src/cpu/alu.py)
   ===================================================================== -/

/-- Embeds to_signed32 (alu.py): 32-bit unsigned to signed. -/
def to_signed32 (value : Nat) : Int :=
  let value := value &&& 0xFFFFFFFF
  if value &&& 0x80000000 ≠ 0 then (value : Int) - 0x100000000 else (value : Int)

/-- Embeds to_unsigned32 (alu.py): signed to 32-bit unsigned; Python
value and 0xFFFFFFFF on a negative int is the value mod 2^32. -/
def to_unsigned32 (value : Int) : Nat :=
  (value % (0x100000000 : Int)).toNat

/-- Embeds add_with_carry (alu.py): returns (result, carry_out, overflow). -/
def add_with_carry (a b : Nat) (carry_in : Bool) : Nat × Bool × Bool :=
  let a := a &&& 0xFFFFFFFF
  let b := b &&& 0xFFFFFFFF
  let c : Nat := if carry_in then 1 else 0
  let unsigned_sum := a + b + c
  let result := unsigned_sum &&& 0xFFFFFFFF
  let carry_out : Bool := decide (unsigned_sum > 0xFFFFFFFF)
  let a_sign := a &&& 0x80000000
  let b_sign := b &&& 0x80000000
  let r_sign := result &&& 0x80000000
  let overflow : Bool := (a_sign == b_sign) && (a_sign != r_sign)
  (result, carry_out, overflow)

/-- Embeds shift_lsl (alu.py). -/
def shift_lsl (value amount : Nat) (carry_in : Bool) : Nat × Bool :=
  let value := value &&& 0xFFFFFFFF
  if amount = 0 then (value, carry_in)
  else if amount < 32 then
    ((value <<< amount) &&& 0xFFFFFFFF, decide (value &&& (1 <<< (32 - amount)) ≠ 0))
  else if amount = 32 then (0, decide (value &&& 1 ≠ 0))
  else (0, false)

/-- Embeds shift_lsr (alu.py). -/
def shift_lsr (value amount : Nat) (carry_in : Bool) : Nat × Bool :=
  let value := value &&& 0xFFFFFFFF
  if amount = 0 then (value, carry_in)
  else if amount < 32 then
    (value >>> amount, decide (value &&& (1 <<< (amount - 1)) ≠ 0))
  else if amount = 32 then (0, decide (value &&& 0x80000000 ≠ 0))
  else (0, false)

/-- Embeds shift_asr (alu.py); the Python arithmetic right shift of a
signed int is a floor division by a power of two. -/
def shift_asr (value amount : Nat) (carry_in : Bool) : Nat × Bool :=
  let value := value &&& 0xFFFFFFFF
  if amount = 0 then (value, carry_in)
  else
    let signed := to_signed32 value
    if amount < 32 then
      (to_unsigned32 (Int.fdiv signed ((2 : Int) ^ amount)),
       decide (value &&& (1 <<< (amount - 1)) ≠ 0))
    else if signed < 0 then (0xFFFFFFFF, true)
    else (0, false)

/-- Embeds shift_ror (alu.py). -/
def shift_ror (value amount : Nat) (carry_in : Bool) : Nat × Bool :=
  let value := value &&& 0xFFFFFFFF
  if amount = 0 then (value, carry_in)
  else
    let amount := amount % 32
    if amount = 0 then (value, decide (value &&& 0x80000000 ≠ 0))
    else
      let result := ((value >>> amount) ||| (value <<< (32 - amount))) &&& 0xFFFFFFFF
      (result, decide (result &&& 0x80000000 ≠ 0))

/- =====================================================================
   Register file (src/cpu/registers.py)
   ===================================================================== -/

/-- Embeds PSR._set_bit (registers.py): the Python clear path
value &= not(1 shl bit) removes the bit and keeps every other bit. -/
def psr_set_bit (v bit : Nat) (b : Bool) : Nat :=
  if b then v ||| (1 <<< bit)
  else if v.testBit bit then v - (1 <<< bit) else v

/-- Embeds PSR.T (bit 24). -/
def psr_t (v : Nat) : Bool := v.testBit 24

/-- Embeds PSR.set_t. -/
def psr_set_t (v : Nat) (b : Bool) : Nat := psr_set_bit v 24 b

/-- Embeds PSR.exception_number (IPSR, bits 0-8). -/
def psr_exception_number (v : Nat) : Nat := v &&& 0x1FF

/-- Embeds the PSR.exception_number setter:
(value and not IPSR_MASK) or (val and 0x1FF). -/
def psr_set_exception_number (v n : Nat) : Nat :=
  (v - (v &&& 0x1FF)) ||| (n &&& 0x1FF)

/-- The register file state (class Registers, registers.py).  The field
regs models _regs (R0..R15); the special registers follow the source. -/
structure Registers where
  regs : Nat → Nat
  psr : Nat
  msp : Nat
  psp : Nat
  primask : Nat
  faultmask : Nat
  basepri : Nat
  control : Nat

/-- Pointwise update of a Nat-indexed store. -/
def upd (f : Nat → Nat) (i v : Nat) : Nat → Nat :=
  fun j => if j = i then v else f j

/-- Embeds the Registers.sp getter: PSP when SPSEL is set and not in a
handler, otherwise MSP. -/
def regs_sp_get (r : Registers) : Nat :=
  if r.control &&& 0x2 ≠ 0 ∧ psr_exception_number r.psr = 0 then r.psp &&& 0xFFFFFFFF
  else r.msp &&& 0xFFFFFFFF

/-- Embeds the Registers.sp setter. -/
def regs_sp_set (r : Registers) (value : Nat) : Registers :=
  let value := value &&& 0xFFFFFFFF
  if r.control &&& 0x2 ≠ 0 ∧ psr_exception_number r.psr = 0 then { r with psp := value }
  else { r with msp := value }

/-- Embeds Registers.__setitem__: masks the value, routes index 13 to
the banked SP, and for index 15 sets T from bit 0 and clears bit 0. -/
def regs_set (r : Registers) (index value : Nat) : Registers :=
  let value := value &&& 0xFFFFFFFF
  if index = 13 then regs_sp_set r value
  else if index = 15 then
    { r with psr := psr_set_t r.psr (decide (value &&& 1 ≠ 0)),
             regs := upd r.regs 15 (value &&& 0xFFFFFFFE) }
  else { r with regs := upd r.regs index value }

/-- Embeds Registers.__getitem__. -/
def regs_get (r : Registers) (index : Nat) : Nat :=
  if index = 13 then regs_sp_get r
  else if index = 15 then r.regs 15
  else r.regs index &&& 0xFFFFFFFF

/-- Embeds the Registers.pc getter. -/
def regs_pc (r : Registers) : Nat := r.regs 15 &&& 0xFFFFFFFF

/-- Embeds the Registers.pc setter (masks bit 0, does not touch T). -/
def regs_set_pc (r : Registers) (value : Nat) : Registers :=
  { r with regs := upd r.regs 15 (value &&& 0xFFFFFFFE) }

/-- Embeds the Registers.lr getter. -/
def regs_lr (r : Registers) : Nat := r.regs 14 &&& 0xFFFFFFFF

/-- Embeds the Registers.lr setter. -/
def regs_set_lr (r : Registers) (value : Nat) : Registers :=
  { r with regs := upd r.regs 14 (value &&& 0xFFFFFFFF) }

/-- Embeds the Registers.msp setter. -/
def regs_msp_set (r : Registers) (value : Nat) : Registers :=
  { r with msp := value &&& 0xFFFFFFFF }

/-- Embeds the Registers.psp setter. -/
def regs_psp_set (r : Registers) (value : Nat) : Registers :=
  { r with psp := value &&& 0xFFFFFFFF }

/-- Embeds Registers.branch: bit 0 of the address becomes the Thumb
state, the stored PC is the address with bit 0 cleared. -/
def regs_branch (r : Registers) (address : Nat) : Registers :=
  { r with psr := psr_set_t r.psr (decide (address &&& 1 ≠ 0)),
           regs := upd r.regs 15 (address &&& 0xFFFFFFFE) }

/-- Embeds Registers.branch_link: LR gets pc + 1 (Thumb bit), then branch. -/
def regs_branch_link (r : Registers) (address : Nat) : Registers :=
  regs_branch { r with regs := upd r.regs 14 ((regs_pc r + 1) &&& 0xFFFFFFFF) } address

/-- Embeds Registers.reset: zero all registers, MSP from initial_sp
masked to a 4-byte boundary, fresh PSR with T set, branch to initial_pc. -/
def regs_reset (initial_sp initial_pc : Nat) : Registers :=
  let msp := initial_sp &&& 0xFFFFFFFC
  regs_branch
    { regs := fun j => if j = 13 then msp else 0,
      psr := 1 <<< 24, msp := msp, psp := 0,
      primask := 0, faultmask := 0, basepri := 0, control := 0 } initial_pc

/-- The public write interfaces of the register file, used to state the
invariant that every PC write path masks bit 0. -/
inductive RegOp where
  | setIdx (index value : Nat)
  | setSp (value : Nat)
  | setMsp (value : Nat)
  | setPsp (value : Nat)
  | setPc (value : Nat)
  | setLr (value : Nat)
  | branchTo (address : Nat)
  | branchLinkTo (address : Nat)
  | resetTo (initial_sp initial_pc : Nat)

/-- Applies one public register-file write. -/
def apply_reg_op (op : RegOp) (r : Registers) : Registers :=
  match op with
  | RegOp.setIdx i v => regs_set r i v
  | RegOp.setSp v => regs_sp_set r v
  | RegOp.setMsp v => regs_msp_set r v
  | RegOp.setPsp v => regs_psp_set r v
  | RegOp.setPc v => regs_set_pc r v
  | RegOp.setLr v => regs_set_lr r v
  | RegOp.branchTo a => regs_branch r a
  | RegOp.branchLinkTo a => regs_branch_link r a
  | RegOp.resetTo sp pc => regs_reset sp pc

/-- The stored PC has bit 0 clear. -/
def pc_even (r : Registers) : Prop := r.regs 15 % 2 = 0

/- =====================================================================
   Exception manager (src/cpu/exceptions.py)
   ===================================================================== -/

/-- State of one exception (class ExceptionState, exceptions.py). -/
structure ExcState where
  enabled : Bool
  pending : Bool
  active : Bool
  priority : Int

/-- Embeds ExceptionState.__init__: Reset, NMI and HardFault get the
fixed priorities -3, -2, -1 and are always enabled; everything else is
disabled with priority 0. -/
def init_exception_state (number : Nat) : ExcState :=
  if number = 1 then { enabled := true, pending := false, active := false, priority := -3 }
  else if number = 2 then { enabled := true, pending := false, active := false, priority := -2 }
  else if number = 3 then { enabled := true, pending := false, active := false, priority := -1 }
  else { enabled := false, pending := false, active := false, priority := 0 }

/-- The exception manager state (class ExceptionManager, exceptions.py);
the fields the verified claims depend on: the exception table (numbers
1..165), VTOR, CCR (STKALIGN), and the stack of active exceptions.  The
Python list appends and pops at the end; here the head of the list is
the top of the stack. -/
structure ExcManager where
  exceptions : Nat → ExcState
  vtor : Nat
  ccr : Nat
  active_stack : List Nat

/-- The exception manager after __init__. -/
def init_exc_manager : ExcManager :=
  { exceptions := init_exception_state, vtor := 0, ccr := 0x200, active_stack := [] }

/-- Pointwise update of the exception table. -/
def upd_exc (f : Nat → ExcState) (n : Nat) (e : ExcState) : Nat → ExcState :=
  fun k => if k = n then e else f k

/-- Embeds ExceptionManager.set_pending (the guard mirrors the
membership test on the 1..165 dictionary). -/
def exc_set_pending (em : ExcManager) (n : Nat) : ExcManager :=
  if 1 ≤ n ∧ n < 166 then
    { em with exceptions := upd_exc em.exceptions n { em.exceptions n with pending := true } }
  else em

/-- Embeds ExceptionManager.set_enabled (fixed exceptions 1..3 cannot
be toggled). -/
def exc_set_enabled (em : ExcManager) (n : Nat) (enabled : Bool) : ExcManager :=
  if 1 ≤ n ∧ n < 166 ∧ n ≠ 1 ∧ n ≠ 2 ∧ n ≠ 3 then
    { em with exceptions := upd_exc em.exceptions n { em.exceptions n with enabled := enabled } }
  else em

/-- Embeds ExceptionManager.set_priority (only the top four bits of the
8-bit value are kept; fixed exceptions are not configurable). -/
def exc_set_priority (em : ExcManager) (n priority : Nat) : ExcManager :=
  if 1 ≤ n ∧ n < 166 ∧ n ≠ 1 ∧ n ≠ 2 ∧ n ≠ 3 then
    { em with exceptions :=
        upd_exc em.exceptions n { em.exceptions n with priority := ((priority &&& 0xF0 : Nat) : Int) } }
  else em

/-- The iteration order of self.exceptions.values(): numbers 1..165. -/
def exc_indices : List Nat := List.range' 1 165

/-- Embeds ExceptionManager.get_execution_priority: minimum of the
active priorities (256 if none), then PRIMASK, FAULTMASK and BASEPRI. -/
def get_execution_priority (em : ExcManager) (r : Registers) : Int :=
  let current := exc_indices.foldl
    (fun cur n =>
      let e := em.exceptions n
      if e.active ∧ e.priority < cur then e.priority else cur) 256
  let current := if r.primask &&& 1 ≠ 0 ∧ current > 0 then 0 else current
  let current := if r.faultmask &&& 1 ≠ 0 ∧ current > -1 then -1 else current
  let current := if r.basepri > 0 ∧ current > (r.basepri : Int) then (r.basepri : Int) else current
  current

/-- One iteration of the selection loop in
ExceptionManager.get_pending_exception: skip non-pending entries; skip
disabled entries when the number is an external IRQ (16 or above) or one
of MemManage, BusFault, UsageFault (4, 5, 6); otherwise take the entry
when its priority is strictly higher (numerically lower). -/
def pending_step (em : ExcManager) (acc : Option Nat × Int) (n : Nat) : Option Nat × Int :=
  let e := em.exceptions n
  if ¬ e.pending then acc
  else if ¬ e.enabled ∧ (16 ≤ n ∨ n = 4 ∨ n = 5 ∨ n = 6) then acc
  else if e.priority < acc.2 then (some n, e.priority) else acc

/-- Embeds ExceptionManager.get_pending_exception. -/
def get_pending_exception (em : ExcManager) (r : Registers) : Option Nat :=
  (exc_indices.foldl (pending_step em) (none, get_execution_priority em r)).1

/- =====================================================================
   Machine state and memory access (src/cpu/cortex_m7.py with the bus
   of src/memory/bus.py backed by RAM)
   ===================================================================== -/

/-- The machine state: register file, exception manager, byte-addressed
memory, the halted flag and the exclusive monitor (class CortexM7,
cortex_m7.py).  The memory is the RAM the claims quantify over; the
function gives the byte stored at each address. -/
structure Machine where
  regs : Registers
  exc : ExcManager
  mem : Nat → Nat
  halted : Bool
  exclusive_addr : Option Nat
  exclusive_active : Bool

/-- Embeds CortexM7.mem_read8 with SystemBus.read8 over a RAM region:
the address is masked to 32 bits and the byte returned. -/
def mem_read8 (m : Machine) (addr : Nat) : Nat :=
  m.mem (addr &&& 0xFFFFFFFF) &&& 0xFF

/-- Embeds CortexM7.mem_read16 with SystemBus.read16 over a RAM region:
the address is masked to a halfword boundary (cpu and bus apply the same
mask) and the two bytes are assembled little-endian. -/
def mem_read16 (m : Machine) (addr : Nat) : Nat :=
  let a := addr &&& 0xFFFFFFFE
  (m.mem a + (m.mem (a + 1) <<< 8)) &&& 0xFFFF

/-- Embeds CortexM7.mem_read32 with SystemBus.read32 over a RAM region:
the address is masked to a word boundary and four bytes are assembled
little-endian. -/
def mem_read32 (m : Machine) (addr : Nat) : Nat :=
  let a := addr &&& 0xFFFFFFFC
  (m.mem a + (m.mem (a + 1) <<< 8) + (m.mem (a + 2) <<< 16) + (m.mem (a + 3) <<< 24)) &&& 0xFFFFFFFF

/-- Embeds CortexM7.mem_write8 with SystemBus.write8 over a RAM region. -/
def mem_write8 (m : Machine) (addr value : Nat) : Machine :=
  { m with mem := upd m.mem (addr &&& 0xFFFFFFFF) (value &&& 0xFF) }

/-- Embeds CortexM7.mem_write16 with SystemBus.write16 over a RAM
region: masked address, two little-endian bytes stored. -/
def mem_write16 (m : Machine) (addr value : Nat) : Machine :=
  let a := addr &&& 0xFFFFFFFE
  let v := value &&& 0xFFFF
  { m with mem := upd (upd m.mem a (v &&& 0xFF)) (a + 1) ((v >>> 8) &&& 0xFF) }

/-- Embeds CortexM7.mem_write32 with SystemBus.write32 over a RAM
region: masked address, four little-endian bytes stored. -/
def mem_write32 (m : Machine) (addr value : Nat) : Machine :=
  let a := addr &&& 0xFFFFFFFC
  let v := value &&& 0xFFFFFFFF
  let mem1 := upd m.mem a (v &&& 0xFF)
  let mem2 := upd mem1 (a + 1) ((v >>> 8) &&& 0xFF)
  let mem3 := upd mem2 (a + 2) ((v >>> 16) &&& 0xFF)
  let mem4 := upd mem3 (a + 3) ((v >>> 24) &&& 0xFF)
  { m with mem := mem4 }

/- =====================================================================
   Exception entry and return (ExceptionManager.exception_entry and
   exception_return, exceptions.py)
   ===================================================================== -/

/-- Embeds ExceptionManager.exception_entry: choose the stacking SP
(PSP only in Thread mode with SPSEL set), realign to 8 bytes when
CCR.STKALIGN is set, push the eight-word frame, bank the new SP, write
EXC_RETURN into LR, mark the exception active, set IPSR, and branch to
the handler fetched from VTOR + 4 * number. -/
def exception_entry (m : Machine) (exc_number : Nat) : Machine :=
  let regs := m.regs
  let use_psp := psr_exception_number regs.psr = 0 ∧ regs.control &&& 0x2 ≠ 0
  let frame_sp := if use_psp then regs.psp &&& 0xFFFFFFFF else regs.msp &&& 0xFFFFFFFF
  let force_align := m.exc.ccr &&& 0x200 ≠ 0
  let frame_align := force_align ∧ frame_sp &&& 0x4 ≠ 0
  let frame_sp := if frame_align then frame_sp - 4 else frame_sp
  let frame_sp := frame_sp - 32
  let xpsr := if frame_align then regs.psr ||| (1 <<< 9) else regs.psr
  let return_addr := regs_pc regs
  let m := mem_write32 m (frame_sp + 0) (regs_get regs 0)
  let m := mem_write32 m (frame_sp + 4) (regs_get regs 1)
  let m := mem_write32 m (frame_sp + 8) (regs_get regs 2)
  let m := mem_write32 m (frame_sp + 12) (regs_get regs 3)
  let m := mem_write32 m (frame_sp + 16) (regs_get regs 12)
  let m := mem_write32 m (frame_sp + 20) (regs_lr regs)
  let m := mem_write32 m (frame_sp + 24) return_addr
  let m := mem_write32 m (frame_sp + 28) xpsr
  let regs := if use_psp then regs_psp_set regs frame_sp else regs_msp_set regs frame_sp
  let regs := regs_set_lr regs
    (if psr_exception_number regs.psr ≠ 0 then 0xFFFFFFF1
     else if use_psp then 0xFFFFFFFD else 0xFFFFFFF9)
  let exc := { m.exc with
    exceptions := upd_exc m.exc.exceptions exc_number
      { m.exc.exceptions exc_number with pending := false, active := true },
    active_stack := exc_number :: m.exc.active_stack }
  let regs := { regs with psr := psr_set_exception_number regs.psr exc_number }
  let handler := mem_read32 m (exc.vtor + exc_number * 4)
  let regs := regs_branch regs handler
  { m with regs := regs, exc := exc }

/-- Embeds ExceptionManager.exception_return: pick the unstacking SP
from EXC_RETURN bit 2, pop the eight-word frame, advance the SP by 32
plus the realignment 4, deactivate the top of the active stack, restore
xPSR with bit 9 cleared, set IPSR from the remaining active stack, and
branch to the popped return address. -/
def exception_return (m : Machine) (exc_return_value : Nat) : Machine :=
  let regs := m.regs
  let use_psp := exc_return_value &&& 0x4 ≠ 0
  let frame_sp := if use_psp then regs.psp &&& 0xFFFFFFFF else regs.msp &&& 0xFFFFFFFF
  let regs := regs_set regs 0 (mem_read32 m (frame_sp + 0))
  let regs := regs_set regs 1 (mem_read32 m (frame_sp + 4))
  let regs := regs_set regs 2 (mem_read32 m (frame_sp + 8))
  let regs := regs_set regs 3 (mem_read32 m (frame_sp + 12))
  let regs := regs_set regs 12 (mem_read32 m (frame_sp + 16))
  let regs := regs_set_lr regs (mem_read32 m (frame_sp + 20))
  let return_addr := mem_read32 m (frame_sp + 24)
  let xpsr := mem_read32 m (frame_sp + 28)
  let frame_sp := frame_sp + 32
  let frame_sp := if xpsr.testBit 9 then frame_sp + 4 else frame_sp
  let regs := if use_psp then regs_psp_set regs frame_sp else regs_msp_set regs frame_sp
  let exc :=
    match m.exc.active_stack with
    | [] => m.exc
    | d :: rest =>
      if 1 ≤ d ∧ d < 166 then
        let table := upd_exc m.exc.exceptions d { m.exc.exceptions d with active := false }
        { m.exc with active_stack := rest, exceptions := table }
      else { m.exc with active_stack := rest }
  let xpsr := if xpsr.testBit 9 then xpsr - (1 <<< 9) else xpsr
  let regs := { regs with psr := xpsr &&& 0xFFFFFFFF }
  let ipsr_val := match exc.active_stack with | [] => 0 | top :: _ => top
  let regs := { regs with psr := psr_set_exception_number regs.psr ipsr_val }
  let regs := regs_branch regs return_addr
  { m with regs := regs, exc := exc }

/- =====================================================================
   Step interrupt check and executor fragments (CortexM7, cortex_m7.py)
   ===================================================================== -/

/-- Embeds the interrupt-check prologue of CortexM7.step (lines before
the fetch): when not halted, a selected pending exception is entered;
when halted, a selected pending exception clears the halt and is
entered, otherwise step returns after one idle cycle.  The Bool is true
exactly when step returned early still halted. -/
def step_interrupt_check (m : Machine) : Machine × Bool :=
  let m :=
    if ¬ m.halted then
      match get_pending_exception m.exc m.regs with
      | some n => exception_entry m n
      | none => m
    else m
  if m.halted then
    match get_pending_exception m.exc m.regs with
    | some n => (exception_entry { m with halted := false } n, false)
    | none => (m, true)
  else (m, false)

/-- Embeds CortexM7._exec_undefined: pend UsageFault (exception 6). -/
def exec_undefined (m : Machine) : Machine :=
  { m with exc := exc_set_pending m.exc 6 }

/-- Embeds CortexM7._exec_unknown: pend HardFault (exception 3). -/
def exec_unknown (m : Machine) : Machine :=
  { m with exc := exc_set_pending m.exc 3 }

/-- The instruction fields used by the exclusive-access handlers. -/
structure Instr where
  rn : Nat
  rt : Nat
  rd : Nat
  imm : Option Nat

/-- Embeds CortexM7._exec_ldrex: load, record the monitor address,
activate the monitor. -/
def exec_ldrex (m : Machine) (inst : Instr) : Machine :=
  let addr := (regs_get m.regs inst.rn + inst.imm.getD 0) &&& 0xFFFFFFFF
  let m := { m with regs := regs_set m.regs inst.rt (mem_read32 m addr) }
  { m with exclusive_addr := some addr, exclusive_active := true }

/-- Embeds CortexM7._exec_strex: store only when the monitor is active
and its address equals the transfer address; Rd gets 0 on success
(clearing the monitor) and 1 on failure (monitor untouched). -/
def exec_strex (m : Machine) (inst : Instr) : Machine :=
  let addr := (regs_get m.regs inst.rn + inst.imm.getD 0) &&& 0xFFFFFFFF
  if m.exclusive_active ∧ m.exclusive_addr = some addr then
    let m := mem_write32 m addr (regs_get m.regs inst.rt)
    let m := { m with regs := regs_set m.regs inst.rd 0 }
    { m with exclusive_active := false }
  else
    { m with regs := regs_set m.regs inst.rd 1 }

/-- Embeds CortexM7._exec_strexb: the condition tests only that the
monitor is active (the address is not compared). -/
def exec_strexb (m : Machine) (inst : Instr) : Machine :=
  let addr := regs_get m.regs inst.rn
  if m.exclusive_active then
    let m := mem_write8 m addr (regs_get m.regs inst.rt)
    let m := { m with regs := regs_set m.regs inst.rd 0 }
    { m with exclusive_active := false }
  else
    { m with regs := regs_set m.regs inst.rd 1 }

/-- Embeds CortexM7._exec_strexh: same shape as _exec_strexb with a
halfword store. -/
def exec_strexh (m : Machine) (inst : Instr) : Machine :=
  let addr := regs_get m.regs inst.rn
  if m.exclusive_active then
    let m := mem_write16 m addr (regs_get m.regs inst.rt)
    let m := { m with regs := regs_set m.regs inst.rd 0 }
    { m with exclusive_active := false }
  else
    { m with regs := regs_set m.regs inst.rd 1 }

/-- Embeds CortexM7._exec_clrex. -/
def exec_clrex (m : Machine) : Machine :=
  { m with exclusive_active := false }

/- =====================================================================
   AES-CTR on-the-fly decryption (src/crypto/otfdec.py)
   ===================================================================== -/

/-- Configuration of AESCTRDecryptor after configure (otfdec.py).  The
nonce field is the 64-bit value of the eight nonce bytes: Python packs
the two 32-bit words big-endian, so the value is word0 * 2^32 + word1
(pack requires each word below 2^32). -/
structure AESCTRConfig where
  nonce : Nat
  version : Nat
  region : Nat
  start_addr : Nat
  end_addr : Nat

/-- Embeds AESCTRDecryptor.configure: the version is masked to 16 bits
and the region to 2 bits. -/
def configure_ctr (nonce_word0 nonce_word1 version region start_addr end_addr : Nat) :
    AESCTRConfig :=
  { nonce := nonce_word0 * 2 ^ 32 + nonce_word1,
    version := version &&& 0xFFFF,
    region := region &&& 0x3,
    start_addr := start_addr,
    end_addr := end_addr }

/-- Embeds AESCTRDecryptor.is_in_region. -/
def ctr_is_in_region (c : AESCTRConfig) (address : Nat) : Prop :=
  c.start_addr ≤ address ∧ address ≤ c.end_addr

/-- Embeds AESCTRDecryptor._build_counter_block as the 128-bit value of
the sixteen counter-block bytes read big-endian: the eight nonce bytes
followed by the big-endian 64-bit word
(version shl 48) or (region shl 46) or ((block_number and mask42) shl 4).
The Python block_offset = (address - start) and not 0xF is the value
with the low four bits cleared. -/
def build_counter_block (c : AESCTRConfig) (address : Nat) : Nat :=
  let diff := address - c.start_addr
  let block_offset := diff - diff % 16
  let block_number := block_offset >>> 4
  let lower := ((c.version &&& 0xFFFF) <<< 48) |||
    ((c.region &&& 0x3) <<< 46) ||| ((block_number &&& 0x3FFFFFFFFFF) <<< 4)
  c.nonce * 2 ^ 64 + lower

/-- Embeds the address flow of AESCTRDecryptor.decrypt: a read at an
address inside the region uses the counter block built for the
enclosing 16-byte-aligned address (aligned_addr = address and not 0xF). -/
def ctr_counter_for_read (c : AESCTRConfig) (address : Nat) : Nat :=
  build_counter_block c (address - address % 16)

/- =====================================================================
   RAM regions and the bus word path (src/memory/sram.py, bus.py)
   ===================================================================== -/

/-- One RAM region (class RAMRegion, sram.py): base address, size and
the byte content indexed by offset. -/
structure RAMRegion where
  base : Nat
  size : Nat
  data : Nat → Nat

/-- Embeds RAMRegion._offset: none models the raised MemoryError when
the address falls outside the region. -/
def ram_offset (r : RAMRegion) (address : Nat) : Option Nat :=
  if address < r.base then none
  else if r.size ≤ address - r.base then none
  else some (address - r.base)

/-- Embeds RAMRegion.read8. -/
def ram_read8 (r : RAMRegion) (address : Nat) : Option Nat :=
  (ram_offset r address).map fun off => r.data off

/-- Embeds RAMRegion.read16 (struct.unpack of two little-endian bytes;
none also models the struct error when the region ends mid-halfword). -/
def ram_read16 (r : RAMRegion) (address : Nat) : Option Nat :=
  (ram_offset r address).bind fun off =>
    if off + 2 ≤ r.size then some (r.data off + (r.data (off + 1) <<< 8)) else none

/-- Embeds RAMRegion.read32 (struct.unpack of four little-endian bytes). -/
def ram_read32 (r : RAMRegion) (address : Nat) : Option Nat :=
  (ram_offset r address).bind fun off =>
    if off + 4 ≤ r.size then
      some (r.data off + (r.data (off + 1) <<< 8) + (r.data (off + 2) <<< 16) +
        (r.data (off + 3) <<< 24))
    else none

/-- Embeds RAMRegion.write8. -/
def ram_write8 (r : RAMRegion) (address value : Nat) : Option RAMRegion :=
  (ram_offset r address).map fun off =>
    { r with data := upd r.data off (value &&& 0xFF) }

/-- Embeds RAMRegion.write32 (struct.pack_into of four little-endian
bytes). -/
def ram_write32 (r : RAMRegion) (address value : Nat) : Option RAMRegion :=
  (ram_offset r address).bind fun off =>
    if off + 4 ≤ r.size then
      let v := value &&& 0xFFFFFFFF
      let d1 := upd r.data off (v &&& 0xFF)
      let d2 := upd d1 (off + 1) ((v >>> 8) &&& 0xFF)
      let d3 := upd d2 (off + 2) ((v >>> 16) &&& 0xFF)
      let d4 := upd d3 (off + 3) ((v >>> 24) &&& 0xFF)
      some { r with data := d4 }
    else none

/-- The DTCM region shape (SRAMController.__init__: 128 KiB at
0x20000000); only the byte content varies. -/
def dtcm_region (data : Nat → Nat) : RAMRegion :=
  { base := 0x20000000, size := 128 * 1024, data := data }

/-- Embeds SystemBus.read32 followed by the DTCM branch of _do_read
(bus.py): the address is masked to a word boundary before routing, and
a DTCM address is served by the SRAM region; the branches for the other
regions and peripherals have the same masked-address shape and are not
modelled here. -/
def bus_read32_dtcm (data : Nat → Nat) (address : Nat) : Option Nat :=
  let address := address &&& 0xFFFFFFFC
  if 0x20000000 ≤ address ∧ address < 0x20020000 then
    (ram_read32 (dtcm_region data) address).map fun v => v &&& 0xFFFFFFFF
  else none

/-- Embeds SystemBus.read16 followed by the DTCM branch of _do_read. -/
def bus_read16_dtcm (data : Nat → Nat) (address : Nat) : Option Nat :=
  let address := address &&& 0xFFFFFFFE
  if 0x20000000 ≤ address ∧ address < 0x20020000 then
    (ram_read16 (dtcm_region data) address).map fun v => v &&& 0xFFFF
  else none

/-- Embeds SystemBus.write32 followed by the DTCM branch of _do_write. -/
def bus_write32_dtcm (data : Nat → Nat) (address value : Nat) : Option (Nat → Nat) :=
  let address := address &&& 0xFFFFFFFC
  let value := value &&& 0xFFFFFFFF
  if 0x20000000 ≤ address ∧ address < 0x20020000 then
    (ram_write32 (dtcm_region data) address value).map fun r => r.data
  else none

/-- Embeds CortexM7.mem_read32 on the bus path above (the cpu masks the
address with 0xFFFFFFFC before the bus masks it again). -/
def cpu_read32_dtcm (data : Nat → Nat) (address : Nat) : Option Nat :=
  bus_read32_dtcm data (address &&& 0xFFFFFFFC)

/-- Embeds CortexM7.mem_read16 on the bus path above. -/
def cpu_read16_dtcm (data : Nat → Nat) (address : Nat) : Option Nat :=
  bus_read16_dtcm data (address &&& 0xFFFFFFFE)

/-- Embeds CortexM7.mem_write32 on the bus path above. -/
def cpu_write32_dtcm (data : Nat → Nat) (address value : Nat) : Option (Nat → Nat) :=
  bus_write32_dtcm data (address &&& 0xFFFFFFFC) (value &&& 0xFFFFFFFF)

/-- A sample register file used as concrete input. -/
def sample_regs : Registers :=
  { regs := fun _ => 0, psr := 1 <<< 24, msp := 0x20001000, psp := 0,
    primask := 0, faultmask := 0, basepri := 0, control := 0 }

/- =====================================================================
   Concrete machine states used as inputs
   ===================================================================== -/

/-- A register file for the entry/return round trip: Thread mode
(IPSR 0), T set, N set, bit 9 clear, MSP 8-byte aligned in DTCM. -/
def c1_regs : Registers :=
  { regs := fun j => if j = 14 then 0x08000123 else if j = 15 then 0x08000100 else 0x10 + j,
    psr := (1 <<< 24) ||| (1 <<< 31),
    msp := 0x20001000, psp := 0,
    primask := 0, faultmask := 0, basepri := 0, control := 0 }

/-- Byte memory holding the vector-table entry for exception 16 at
VTOR + 64: the handler address 0x08000201 (bit 0 set: a valid Thumb
handler), little-endian. -/
def c1_mem : Nat → Nat :=
  fun a =>
    if a = 64 then 0x01 else if a = 65 then 0x02
    else if a = 66 then 0x00 else if a = 67 then 0x08 else 0

/-- The machine before exception entry in the round-trip experiment. -/
def c1_machine : Machine :=
  { regs := c1_regs, exc := init_exc_manager, mem := c1_mem, halted := false,
    exclusive_addr := none, exclusive_active := false }

/-- The same machine with the exclusive monitor armed. -/
def c2_machine : Machine :=
  { c1_machine with exclusive_addr := some 0x20000010, exclusive_active := true }

/-- Machine for the exclusive-access experiments: R1 holds 0x20000000,
R2 holds 0x20000004, R3 holds the value 0xAB to store. -/
def c3_machine : Machine :=
  { regs := { regs := fun j => if j = 1 then 0x20000000 else if j = 2 then 0x20000004
                else if j = 3 then 0xAB else 0,
              psr := 1 <<< 24, msp := 0x20001000, psp := 0,
              primask := 0, faultmask := 0, basepri := 0, control := 0 },
    exc := init_exc_manager, mem := fun _ => 0, halted := false,
    exclusive_addr := none, exclusive_active := false }

/-- Machine after LDREX R0, [R1]: the monitor records 0x20000000. -/
def c3_after_ldrex : Machine :=
  exec_ldrex c3_machine { rn := 1, rt := 0, rd := 0, imm := none }

/-- A halted machine with PRIMASK set and IRQ0 (exception 16) enabled,
pending, at priority 0x10, built through the source operations. -/
def c4_machine : Machine :=
  let em := exc_set_pending (exc_set_priority (exc_set_enabled init_exc_manager 16 true) 16 0x10) 16
  { regs := { regs := fun _ => 0, psr := 1 <<< 24, msp := 0x20001000, psp := 0,
              primask := 1, faultmask := 0, basepri := 0, control := 0 },
    exc := em, mem := c1_mem, halted := true,
    exclusive_addr := none, exclusive_active := false }

/-- An idle machine (nothing pending or active, no masking) used for
the UsageFault experiment; UsageFault keeps its default disabled state. -/
def c5_machine : Machine :=
  { regs := { regs := fun _ => 0, psr := 1 <<< 24, msp := 0x20001000, psp := 0,
              primask := 0, faultmask := 0, basepri := 0, control := 0 },
    exc := init_exc_manager, mem := fun _ => 0, halted := false,
    exclusive_addr := none, exclusive_active := false }

/- =====================================================================
   Helper lemmas about 32-bit masking
   ===================================================================== -/

theorem and_ffffffff_eq_mod (v : Nat) : v &&& 0xFFFFFFFF = v % 2 ^ 32 := by
  have h : (0xFFFFFFFF : Nat) = 2 ^ 32 - 1 := by norm_num
  rw [h, Nat.and_pow_two_sub_one_eq_mod]

theorem and_ffffffff_of_lt {v : Nat} (h : v < 2 ^ 32) : v &&& 0xFFFFFFFF = v := by
  rw [and_ffffffff_eq_mod, Nat.mod_eq_of_lt h]

theorem and_two_pow_31 (v : Nat) : v &&& 0x80000000 = (v.testBit 31).toNat * 2 ^ 31 := by
  have h : (0x80000000 : Nat) = 2 ^ 31 := by norm_num
  rw [h, Nat.and_two_pow]

/- =====================================================================
   Further helper lemmas
   ===================================================================== -/

theorem decide_and_one_ne_zero (v : Nat) : decide (v &&& 1 ≠ 0) = v.testBit 0 := by
  rw [Nat.and_one_is_mod]
  rcases Nat.mod_two_eq_zero_or_one v with h | h <;> simp [h, Nat.testBit_zero]

theorem decide_and_msb_ne_zero (v : Nat) : decide (v &&& 0x80000000 ≠ 0) = v.testBit 31 := by
  rw [and_two_pow_31]
  cases h : v.testBit 31 <;> simp [h]

theorem decide_and_msb_eq_zero (v : Nat) : decide (v &&& 0x80000000 = 0) = !v.testBit 31 := by
  rw [and_two_pow_31]
  cases h : v.testBit 31 <;> simp [h]

theorem to_signed32_neg_iff {v : Nat} (h : v < 2 ^ 32) :
    to_signed32 v < 0 ↔ v.testBit 31 = true := by
  simp only [to_signed32, and_ffffffff_of_lt h, and_two_pow_31]
  cases hb : v.testBit 31
  · simp [hb]
  · simp [hb]
    omega

/- =====================================================================
   C6: add_with_carry
   ===================================================================== -/

/-- C6: for all 32-bit inputs a, b and carry-in c, add_with_carry
returns result = (a + b + c) mod 2^32, carry-out such that
result + (c_out ? 2^32 : 0) = a + b + c, and overflow true exactly when
a and b share a sign bit that differs from the sign bit of the result. -/
theorem c6_add_with_carry_spec (a b : Nat) (c : Bool) (ha : a < 2 ^ 32) (hb : b < 2 ^ 32) :
    (add_with_carry a b c).1 = (a + b + (if c then 1 else 0)) % 2 ^ 32 ∧
    (add_with_carry a b c).1 + (if (add_with_carry a b c).2.1 then 2 ^ 32 else 0)
      = a + b + (if c then 1 else 0) ∧
    ((add_with_carry a b c).2.2 = true ↔
      (a.testBit 31 = b.testBit 31 ∧
        a.testBit 31 ≠ ((add_with_carry a b c).1).testBit 31)) := by
  simp only [add_with_carry, and_ffffffff_of_lt ha, and_ffffffff_of_lt hb,
    and_ffffffff_eq_mod]
  set cn : Nat := if c then 1 else 0 with hcn
  have hcn1 : cn ≤ 1 := by rw [hcn]; split <;> omega
  have hs : a + b + cn < 2 ^ 33 := by
    have : (2 : Nat) ^ 33 = 2 ^ 32 + 2 ^ 32 := by norm_num
    omega
  refine ⟨trivial, ?_, ?_⟩
  · by_cases h : a + b + cn > 0xFFFFFFFF
    · simp only [h]
      simp only [decide_True, if_true]
      have h33 : (2 : Nat) ^ 33 = 2 ^ 32 + 2 ^ 32 := by norm_num
      have h32 : (0xFFFFFFFF : Nat) + 1 = 2 ^ 32 := by norm_num
      omega
    · simp [h]
      have h32 : (0xFFFFFFFF : Nat) + 1 = 2 ^ 32 := by norm_num
      omega
  · rw [and_two_pow_31, and_two_pow_31, and_two_pow_31]
    cases hta : a.testBit 31 <;> cases htb : b.testBit 31 <;>
      cases htr : ((a + b + cn) % 2 ^ 32).testBit 31 <;> simp

/-- Closed witness for c6_add_with_carry_spec at a = 0x7FFFFFFF, b = 1,
c = false. -/
theorem c6_add_with_carry_spec_witness :
    (add_with_carry 0x7FFFFFFF 1 false).1 = (0x7FFFFFFF + 1 + (if false then 1 else 0)) % 2 ^ 32 ∧
    (add_with_carry 0x7FFFFFFF 1 false).1 +
        (if (add_with_carry 0x7FFFFFFF 1 false).2.1 then 2 ^ 32 else 0)
      = 0x7FFFFFFF + 1 + (if false then 1 else 0) ∧
    ((add_with_carry 0x7FFFFFFF 1 false).2.2 = true ↔
      ((0x7FFFFFFF : Nat).testBit 31 = (1 : Nat).testBit 31 ∧
        (0x7FFFFFFF : Nat).testBit 31 ≠ ((add_with_carry 0x7FFFFFFF 1 false).1).testBit 31)) :=
  c6_add_with_carry_spec 0x7FFFFFFF 1 false (by norm_num) (by norm_num)

/- =====================================================================
   C7: shift primitive boundary behaviour
   ===================================================================== -/

/-- C7: every shift primitive at amount 0 returns the value and the
input carry; LSL and LSR at exactly 32 return 0 with carry-out the LSB
resp. MSB and at amounts above 32 return 0 with carry-out false; ASR at
amounts of 32 or more returns all-ones with carry-out true when the
sign bit is set and all-zeros with carry-out false otherwise. -/
theorem c7_shift_boundary_spec (v : Nat) (c : Bool) (hv : v < 2 ^ 32) :
    shift_lsl v 0 c = (v, c) ∧
    shift_lsr v 0 c = (v, c) ∧
    shift_asr v 0 c = (v, c) ∧
    shift_ror v 0 c = (v, c) ∧
    shift_lsl v 32 c = (0, v.testBit 0) ∧
    shift_lsr v 32 c = (0, v.testBit 31) ∧
    (∀ n, 32 < n → shift_lsl v n c = (0, false)) ∧
    (∀ n, 32 < n → shift_lsr v n c = (0, false)) ∧
    (∀ n, 32 ≤ n →
      shift_asr v n c = if v.testBit 31 then (0xFFFFFFFF, true) else (0, false)) := by
  refine ⟨?_, ?_, ?_, ?_, ?_, ?_, ?_, ?_, ?_⟩
  · simp [shift_lsl, and_ffffffff_of_lt hv]
  · simp [shift_lsr, and_ffffffff_of_lt hv]
  · simp [shift_asr, and_ffffffff_of_lt hv]
  · simp [shift_ror, and_ffffffff_of_lt hv]
  · simp [shift_lsl, and_ffffffff_of_lt hv, decide_and_one_ne_zero]
  · simp [shift_lsr, and_ffffffff_of_lt hv, decide_and_msb_ne_zero, decide_and_msb_eq_zero]
  · intro n hn
    have h0 : n ≠ 0 := by omega
    have h1 : ¬ n < 32 := by omega
    have h2 : n ≠ 32 := by omega
    simp [shift_lsl, h0, h1, h2]
  · intro n hn
    have h0 : n ≠ 0 := by omega
    have h1 : ¬ n < 32 := by omega
    have h2 : n ≠ 32 := by omega
    simp [shift_lsr, h0, h1, h2]
  · intro n hn
    have h0 : n ≠ 0 := by omega
    have h1 : ¬ n < 32 := by omega
    simp only [shift_asr, and_ffffffff_of_lt hv, h0, h1, if_false]
    cases hb : v.testBit 31
    · have hneg : ¬ to_signed32 v < 0 := by
        rw [to_signed32_neg_iff hv]; simp [hb]
      simp [hneg, hb]
    · have hneg : to_signed32 v < 0 := by
        rw [to_signed32_neg_iff hv]; simp [hb]
      simp [hneg, hb]

/-- Closed witness for c7_shift_boundary_spec at v = 0x80000001,
c = true, with the quantified amounts instantiated at 33 and 32. -/
theorem c7_shift_boundary_spec_witness :
    shift_lsl 0x80000001 0 true = (0x80000001, true) ∧
    shift_lsl 0x80000001 33 true = (0, false) ∧
    shift_lsr 0x80000001 33 true = (0, false) ∧
    shift_asr 0x80000001 32 true =
      (if (0x80000001 : Nat).testBit 31 then (0xFFFFFFFF, true) else (0, false)) := by
  have h := c7_shift_boundary_spec 0x80000001 true (by norm_num)
  exact ⟨h.1, h.2.2.2.2.2.2.1 33 (by norm_num), h.2.2.2.2.2.2.2.1 33 (by norm_num),
    h.2.2.2.2.2.2.2.2 32 (by norm_num)⟩

/- =====================================================================
   C8: register write masking and the PC bit-0 invariant
   ===================================================================== -/

theorem upd_self (f : Nat → Nat) (i v : Nat) : upd f i v i = v := by
  simp [upd]

theorem upd_ne (f : Nat → Nat) (i v j : Nat) (h : j ≠ i) : upd f i v j = f j := by
  simp [upd, h]

theorem and_fffffffe_even (x : Nat) : (x &&& 0xFFFFFFFE) % 2 = 0 := by
  by_contra h
  have h1 : (x &&& 0xFFFFFFFE) % 2 = 1 := by omega
  rw [Nat.and_mod_two_eq_one] at h1
  omega

theorem regs_sp_set_regs (r : Registers) (v : Nat) : (regs_sp_set r v).regs = r.regs := by
  simp only [regs_sp_set]
  split <;> rfl

/-- C8 counterexample: writing the odd value 1 to R15 through the
indexed interface stores 0, not 1 and 0xFFFFFFFF = 1; the claim that
every register write stores value and 0xFFFFFFFF fails on the PC. -/
theorem c8_pc_write_not_masked_to_32_bits :
    (regs_set sample_regs 15 1).regs 15 ≠ 1 &&& 0xFFFFFFFF := by decide

/-- C8 (amended): every write through the public interface stores
value and 0xFFFFFFFF, except that the PC write paths (indexed write to
15, the pc setter, branch and the branch inside branch_link and reset)
store value and 0xFFFFFFFE, and reset stores initial_sp and 0xFFFFFFFC
into MSP; after any public write the stored PC has bit 0 clear. -/
theorem c8_register_write_masking :
    (∀ op r, pc_even r → pc_even (apply_reg_op op r)) ∧
    (∀ r i v, i ≤ 12 → (regs_set r i v).regs i = v &&& 0xFFFFFFFF) ∧
    (∀ r v, (regs_set_lr r v).regs 14 = v &&& 0xFFFFFFFF) ∧
    (∀ r v, (regs_msp_set r v).msp = v &&& 0xFFFFFFFF) ∧
    (∀ r v, (regs_psp_set r v).psp = v &&& 0xFFFFFFFF) ∧
    (∀ r v, (regs_sp_set r v).msp = v &&& 0xFFFFFFFF ∨
      (regs_sp_set r v).psp = v &&& 0xFFFFFFFF) ∧
    (∀ r v, (regs_set r 15 v).regs 15 = v &&& 0xFFFFFFFE) ∧
    (∀ r v, (regs_set_pc r v).regs 15 = v &&& 0xFFFFFFFE) ∧
    (∀ r a, (regs_branch r a).regs 15 = a &&& 0xFFFFFFFE) ∧
    (∀ sp pc, (regs_reset sp pc).msp = sp &&& 0xFFFFFFFC) := by
  have hmask : ∀ v : Nat, (v &&& 0xFFFFFFFF) &&& 0xFFFFFFFE = v &&& 0xFFFFFFFE := by
    intro v
    rw [Nat.and_assoc]
    have h2 : (0xFFFFFFFF &&& 0xFFFFFFFE : Nat) = 0xFFFFFFFE := by decide
    rw [h2]
  refine ⟨?_, ?_, ?_, ?_, ?_, ?_, ?_, ?_, ?_, ?_⟩
  · intro op r hr
    cases op with
    | setIdx i v =>
      simp only [apply_reg_op, regs_set]
      by_cases h13 : i = 13
      · simpa [h13, pc_even, regs_sp_set_regs] using hr
      · by_cases h15 : i = 15
        · simp [h13, h15, pc_even, upd_self, and_fffffffe_even]
        · simpa [h13, h15, pc_even, upd_ne _ _ _ _ (by omega : (15 : Nat) ≠ i)] using hr
    | setSp v => simpa [apply_reg_op, pc_even, regs_sp_set_regs] using hr
    | setMsp v => simpa [apply_reg_op, regs_msp_set, pc_even] using hr
    | setPsp v => simpa [apply_reg_op, regs_psp_set, pc_even] using hr
    | setPc v => simp [apply_reg_op, regs_set_pc, pc_even, upd_self, and_fffffffe_even]
    | setLr v =>
      simpa [apply_reg_op, regs_set_lr, pc_even,
        upd_ne _ _ _ _ (by omega : (15 : Nat) ≠ 14)] using hr
    | branchTo a => simp [apply_reg_op, regs_branch, pc_even, upd_self, and_fffffffe_even]
    | branchLinkTo a =>
      simp [apply_reg_op, regs_branch_link, regs_branch, pc_even, upd_self, and_fffffffe_even]
    | resetTo sp pc =>
      simp [apply_reg_op, regs_reset, regs_branch, pc_even, upd_self, and_fffffffe_even]
  · intro r i v hi
    simp only [regs_set]
    have h13 : i ≠ 13 := by omega
    have h15 : i ≠ 15 := by omega
    simp [h13, h15, upd_self]
  · intro r v
    simp [regs_set_lr, upd_self]
  · intro r v
    simp [regs_msp_set]
  · intro r v
    simp [regs_psp_set]
  · intro r v
    simp only [regs_sp_set]
    split
    · right; rfl
    · left; rfl
  · intro r v
    simp [regs_set, upd_self, hmask]
  · intro r v
    simp [regs_set_pc, upd_self]
  · intro r a
    simp [regs_branch, upd_self]
  · intro sp pc
    simp [regs_reset, regs_branch]

/-- Closed witness for c8_register_write_masking: a branch to an odd
address keeps the stored PC even, and a plain write to R2 stores the
masked value. -/
theorem c8_register_write_masking_witness :
    pc_even (apply_reg_op (RegOp.branchTo 0x08000101) sample_regs) ∧
    (regs_set sample_regs 2 0x123456789).regs 2 = 0x123456789 &&& 0xFFFFFFFF := by
  constructor
  · exact c8_register_write_masking.1 (RegOp.branchTo 0x08000101) sample_regs (by rfl)
  · exact c8_register_write_masking.2.1 sample_regs 2 0x123456789 (by norm_num)

/- =====================================================================
   C1: exception entry followed by exception return
   ===================================================================== -/

/-- C1: evaluating the code on the round trip (entry for exception 16,
then return through the EXC_RETURN value the entry left in LR) restores
R0-R3, R12, R4-R11, LR, PC, the stacking MSP and the IPSR, but the
final branch to the stacked (even) return address clears EPSR.T, so the
whole xPSR is not restored and T does not stay 1: the claim fails on
this input. -/
theorem c1_roundtrip_clears_thumb_bit :
    (exception_return (exception_entry c1_machine 16)
        (regs_lr (exception_entry c1_machine 16).regs)).regs.regs 0 = c1_machine.regs.regs 0 ∧
    (exception_return (exception_entry c1_machine 16)
        (regs_lr (exception_entry c1_machine 16).regs)).regs.regs 1 = c1_machine.regs.regs 1 ∧
    (exception_return (exception_entry c1_machine 16)
        (regs_lr (exception_entry c1_machine 16).regs)).regs.regs 2 = c1_machine.regs.regs 2 ∧
    (exception_return (exception_entry c1_machine 16)
        (regs_lr (exception_entry c1_machine 16).regs)).regs.regs 3 = c1_machine.regs.regs 3 ∧
    (exception_return (exception_entry c1_machine 16)
        (regs_lr (exception_entry c1_machine 16).regs)).regs.regs 4 = c1_machine.regs.regs 4 ∧
    (exception_return (exception_entry c1_machine 16)
        (regs_lr (exception_entry c1_machine 16).regs)).regs.regs 5 = c1_machine.regs.regs 5 ∧
    (exception_return (exception_entry c1_machine 16)
        (regs_lr (exception_entry c1_machine 16).regs)).regs.regs 6 = c1_machine.regs.regs 6 ∧
    (exception_return (exception_entry c1_machine 16)
        (regs_lr (exception_entry c1_machine 16).regs)).regs.regs 7 = c1_machine.regs.regs 7 ∧
    (exception_return (exception_entry c1_machine 16)
        (regs_lr (exception_entry c1_machine 16).regs)).regs.regs 8 = c1_machine.regs.regs 8 ∧
    (exception_return (exception_entry c1_machine 16)
        (regs_lr (exception_entry c1_machine 16).regs)).regs.regs 9 = c1_machine.regs.regs 9 ∧
    (exception_return (exception_entry c1_machine 16)
        (regs_lr (exception_entry c1_machine 16).regs)).regs.regs 10 = c1_machine.regs.regs 10 ∧
    (exception_return (exception_entry c1_machine 16)
        (regs_lr (exception_entry c1_machine 16).regs)).regs.regs 11 = c1_machine.regs.regs 11 ∧
    (exception_return (exception_entry c1_machine 16)
        (regs_lr (exception_entry c1_machine 16).regs)).regs.regs 12 = c1_machine.regs.regs 12 ∧
    (exception_return (exception_entry c1_machine 16)
        (regs_lr (exception_entry c1_machine 16).regs)).regs.regs 14 = c1_machine.regs.regs 14 ∧
    (exception_return (exception_entry c1_machine 16)
        (regs_lr (exception_entry c1_machine 16).regs)).regs.regs 15 = c1_machine.regs.regs 15 ∧
    (exception_return (exception_entry c1_machine 16)
        (regs_lr (exception_entry c1_machine 16).regs)).regs.msp = c1_machine.regs.msp ∧
    psr_exception_number (exception_return (exception_entry c1_machine 16)
        (regs_lr (exception_entry c1_machine 16).regs)).regs.psr = 0 ∧
    psr_t (exception_entry c1_machine 16).regs.psr = true ∧
    psr_t (exception_return (exception_entry c1_machine 16)
        (regs_lr (exception_entry c1_machine 16).regs)).regs.psr = false ∧
    (exception_return (exception_entry c1_machine 16)
        (regs_lr (exception_entry c1_machine 16).regs)).regs.psr ≠ c1_machine.regs.psr := by
  decide

/- =====================================================================
   C2: the exclusive monitor across entry and return
   ===================================================================== -/

/-- C2: evaluating the code with the monitor armed: it is still armed
immediately after exception entry and immediately after the matching
exception return; neither sequence touches the monitor, so the claim
that any entry or return clears it fails on this input. -/
theorem c2_entry_return_leave_monitor_set :
    (exception_entry c2_machine 16).exclusive_active = true ∧
    (exception_return (exception_entry c2_machine 16)
        (regs_lr (exception_entry c2_machine 16).regs)).exclusive_active = true ∧
    (exception_entry c2_machine 16).exclusive_addr = some 0x20000010 ∧
    (exception_return (exception_entry c2_machine 16)
        (regs_lr (exception_entry c2_machine 16).regs)).exclusive_addr = some 0x20000010 := by
  decide

/- =====================================================================
   C3: STREX family semantics
   ===================================================================== -/

/-- C3 counterexample: with the monitor armed at 0x20000000 by LDREX, a
STREX to the non-matching address 0x20000004 returns 1 in Rd but leaves
the monitor ACTIVE (the claim says either outcome deactivates it), and
a STREXB to the non-matching address 0x20000004 DOES perform its store
(the claim says the store requires the recorded address to match). -/
theorem c3_strex_failure_keeps_monitor :
    (exec_strex c3_after_ldrex { rn := 2, rt := 3, rd := 4, imm := none }).regs.regs 4 = 1 ∧
    (exec_strex c3_after_ldrex { rn := 2, rt := 3, rd := 4, imm := none }).exclusive_active
      = true ∧
    c3_after_ldrex.exclusive_addr = some 0x20000000 ∧
    (exec_strexb c3_after_ldrex { rn := 2, rt := 3, rd := 4, imm := none }).mem 0x20000004
      = 0xAB := by
  decide

/-- C3 (amended): STREX stores exactly when the monitor is active and
the recorded address equals the transfer address; STREXB and STREXH
store exactly when the monitor is active (the address is not checked);
Rd receives 0 on success and 1 on failure; the monitor is deactivated
on success but keeps its previous state on failure. -/
theorem c3_strex_monitor_semantics (m : Machine) (inst : Instr) (addr baddr : Nat)
    (hrd : inst.rd ≤ 12)
    (haddr : addr = (regs_get m.regs inst.rn + inst.imm.getD 0) &&& 0xFFFFFFFF)
    (hbaddr : baddr = regs_get m.regs inst.rn) :
    ((m.exclusive_active = true ∧ m.exclusive_addr = some addr) →
      (exec_strex m inst).mem = (mem_write32 m addr (regs_get m.regs inst.rt)).mem ∧
      (exec_strex m inst).regs.regs inst.rd = 0 ∧
      (exec_strex m inst).exclusive_active = false) ∧
    (¬ (m.exclusive_active = true ∧ m.exclusive_addr = some addr) →
      (exec_strex m inst).mem = m.mem ∧
      (exec_strex m inst).regs.regs inst.rd = 1 ∧
      (exec_strex m inst).exclusive_active = m.exclusive_active) ∧
    (m.exclusive_active = true →
      (exec_strexb m inst).mem = (mem_write8 m baddr (regs_get m.regs inst.rt)).mem ∧
      (exec_strexb m inst).regs.regs inst.rd = 0 ∧
      (exec_strexb m inst).exclusive_active = false) ∧
    (m.exclusive_active = false →
      (exec_strexb m inst).mem = m.mem ∧
      (exec_strexb m inst).regs.regs inst.rd = 1 ∧
      (exec_strexb m inst).exclusive_active = m.exclusive_active) ∧
    (m.exclusive_active = true →
      (exec_strexh m inst).mem = (mem_write16 m baddr (regs_get m.regs inst.rt)).mem ∧
      (exec_strexh m inst).regs.regs inst.rd = 0 ∧
      (exec_strexh m inst).exclusive_active = false) ∧
    (m.exclusive_active = false →
      (exec_strexh m inst).mem = m.mem ∧
      (exec_strexh m inst).regs.regs inst.rd = 1 ∧
      (exec_strexh m inst).exclusive_active = m.exclusive_active) := by
  subst haddr hbaddr
  have h13 : inst.rd ≠ 13 := by omega
  have h15 : inst.rd ≠ 15 := by omega
  refine ⟨?_, ?_, ?_, ?_, ?_, ?_⟩
  · intro h
    simp only [exec_strex, h.1, h.2, and_self, if_true]
    refine ⟨by simp, by simp [regs_set, h13, h15, upd_self], by simp⟩
  · intro h
    rw [exec_strex]
    split
    · rename_i hcond
      exact absurd ⟨hcond.1, hcond.2⟩ h
    · refine ⟨rfl, ?_, rfl⟩
      simp [regs_set, h13, h15, upd_self]
  · intro h
    simp only [exec_strexb, h, if_true]
    refine ⟨by simp, by simp [regs_set, h13, h15, upd_self], by simp⟩
  · intro h
    simp only [exec_strexb, h, Bool.false_eq_true, if_false]
    refine ⟨by simp, by simp [regs_set, h13, h15, upd_self], by simp⟩
  · intro h
    simp only [exec_strexh, h, if_true]
    refine ⟨by simp, by simp [regs_set, h13, h15, upd_self], by simp⟩
  · intro h
    simp only [exec_strexh, h, Bool.false_eq_true, if_false]
    refine ⟨by simp, by simp [regs_set, h13, h15, upd_self], by simp⟩

/-- Closed witness for c3_strex_monitor_semantics on the armed machine
with a matching STREX: the store goes through, Rd is 0 and the monitor
is released. -/
theorem c3_strex_monitor_semantics_witness :
    (exec_strex c3_after_ldrex { rn := 1, rt := 3, rd := 4, imm := none }).mem
      = (mem_write32 c3_after_ldrex 0x20000000
          (regs_get c3_after_ldrex.regs 3)).mem ∧
    (exec_strex c3_after_ldrex { rn := 1, rt := 3, rd := 4, imm := none }).regs.regs 4 = 0 ∧
    (exec_strex c3_after_ldrex { rn := 1, rt := 3, rd := 4, imm := none }).exclusive_active
      = false := by
  have h := c3_strex_monitor_semantics c3_after_ldrex
    { rn := 1, rt := 3, rd := 4, imm := none } 0x20000000 0x20000000
    (by norm_num) (by decide) (by decide)
  exact h.1 (by decide)

/- =====================================================================
   C4: WFI wake-up and PRIMASK
   ===================================================================== -/

/-- C4 counterexample: a halted machine with PRIMASK set and the
enabled exception 16 newly pending at priority 0x10 stays halted on the
next step (the selection applies PRIMASK masking), contradicting the
claim that the wake-up is independent of PRIMASK. -/
theorem c4_wfi_wake_blocked_by_primask :
    (c4_machine.exc.exceptions 16).pending = true ∧
    (c4_machine.exc.exceptions 16).enabled = true ∧
    c4_machine.regs.primask = 1 ∧
    c4_machine.halted = true ∧
    (step_interrupt_check c4_machine).1.halted = true ∧
    (step_interrupt_check c4_machine).2 = true := by
  decide

/-- Exception entry does not touch the halted flag. -/
theorem exception_entry_halted (m : Machine) (n : Nat) :
    (exception_entry m n).halted = m.halted := rfl

/-- C4 (amended): when the machine is halted, the next step un-halts it
and runs the exception entry sequence exactly when
get_pending_exception, which applies the PRIMASK/FAULTMASK/BASEPRI
masked execution priority, selects an exception; otherwise the machine
stays halted after a one-cycle idle step. -/
theorem c4_halted_step_wakes_iff_selected (m : Machine) (h : m.halted = true) :
    (get_pending_exception m.exc m.regs = none → step_interrupt_check m = (m, true)) ∧
    (∀ n, get_pending_exception m.exc m.regs = some n →
      step_interrupt_check m = (exception_entry { m with halted := false } n, false) ∧
      (step_interrupt_check m).1.halted = false) := by
  constructor
  · intro hp
    simp [step_interrupt_check, h, hp]
  · intro n hp
    constructor
    · simp [step_interrupt_check, h, hp]
    · simp [step_interrupt_check, h, hp, exception_entry_halted]

/-- Closed witness for c4_halted_step_wakes_iff_selected: the halted
machine with PRIMASK set and exception 16 pending is not woken, because
the masked selection returns nothing. -/
theorem c4_halted_step_wakes_iff_selected_witness :
    step_interrupt_check c4_machine = (c4_machine, true) :=
  (c4_halted_step_wakes_iff_selected c4_machine (by decide)).1 (by decide)

/- =====================================================================
   C5: UNDEFINED and UsageFault
   ===================================================================== -/

theorem foldl_id_of_skip {α β : Type} (f : β → α → β) (l : List α) (b : β)
    (h : ∀ a ∈ l, ∀ acc, f acc a = acc) : l.foldl f b = b := by
  induction l generalizing b with
  | nil => rfl
  | cons x xs ih =>
    rw [List.foldl_cons, h x (List.mem_cons_self x xs)]
    exact ih b fun a ha acc => h a (List.mem_cons_of_mem x ha) acc

theorem exec_priority_idle (em : ExcManager) (r : Registers)
    (hact : ∀ n, (em.exceptions n).active = false)
    (hp : r.primask &&& 1 = 0) (hf : r.faultmask &&& 1 = 0) (hb : r.basepri = 0) :
    get_execution_priority em r = 256 := by
  simp only [get_execution_priority]
  rw [foldl_id_of_skip]
  · simp [hp, hf, hb]
  · intro a _ acc
    simp [hact a]

theorem init_state_not_pending (n : Nat) : (init_exception_state n).pending = false := by
  unfold init_exception_state
  split_ifs <;> rfl

theorem init_state_not_active (n : Nat) : (init_exception_state n).active = false := by
  unfold init_exception_state
  split_ifs <;> rfl

/-- C5 counterexample: on an idle machine with UsageFault left at its
default disabled state, UNDEFINED pends UsageFault, but HardFault is
NOT pended and the selection never picks the disabled UsageFault, so
execution neither enters a fault handler nor escalates; the claim that
a disabled UsageFault escalates to HardFault fails on this input. -/
theorem c5_disabled_usagefault_not_escalated :
    ((exec_undefined c5_machine).exc.exceptions 6).pending = true ∧
    ((exec_undefined c5_machine).exc.exceptions 6).enabled = false ∧
    ((exec_undefined c5_machine).exc.exceptions 3).pending = false ∧
    get_pending_exception (exec_undefined c5_machine).exc (exec_undefined c5_machine).regs
      = none := by
  decide

/-- C5 (amended): on a machine with nothing pending or active and no
masking, executing UNDEFINED sets UsageFault (exception 6) pending; if
UsageFault is enabled the selection picks it (so execution enters the
UsageFault handler); if it is disabled the fault is never selected and
HardFault (exception 3) is not made pending - there is no escalation. -/
theorem c5_undefined_usagefault_escalation (m : Machine)
    (hpend : ∀ n, (m.exc.exceptions n).pending = false)
    (hact : ∀ n, (m.exc.exceptions n).active = false)
    (hp : m.regs.primask &&& 1 = 0) (hf : m.regs.faultmask &&& 1 = 0)
    (hb : m.regs.basepri = 0)
    (hpri : (m.exc.exceptions 6).priority < 256) :
    ((exec_undefined m).exc.exceptions 6).pending = true ∧
    ((exec_undefined m).exc.exceptions 3).pending = false ∧
    ((m.exc.exceptions 6).enabled = true →
      get_pending_exception (exec_undefined m).exc (exec_undefined m).regs = some 6) ∧
    ((m.exc.exceptions 6).enabled = false →
      get_pending_exception (exec_undefined m).exc (exec_undefined m).regs = none) := by
  have hexc : (exec_undefined m).exc.exceptions
      = upd_exc m.exc.exceptions 6 { m.exc.exceptions 6 with pending := true } := by
    simp [exec_undefined, exc_set_pending]
  have h6 : (exec_undefined m).exc.exceptions 6
      = { m.exc.exceptions 6 with pending := true } := by
    rw [hexc]
    simp [upd_exc]
  have hne : ∀ n, n ≠ 6 → (exec_undefined m).exc.exceptions n = m.exc.exceptions n := by
    intro n hn
    rw [hexc]
    simp [upd_exc, hn]
  have hact' : ∀ n, ((exec_undefined m).exc.exceptions n).active = false := by
    intro n
    by_cases hn : n = 6
    · subst hn
      rw [h6]
      exact hact 6
    · rw [hne n hn]
      exact hact n
  have hep : get_execution_priority (exec_undefined m).exc (exec_undefined m).regs = 256 :=
    exec_priority_idle _ _ hact' hp hf hb
  have hsplit : exc_indices = List.range' 1 5 ++ 6 :: List.range' 7 159 := by decide
  have hskip1 : ∀ a ∈ List.range' 1 5, ∀ acc,
      pending_step (exec_undefined m).exc acc a = acc := by
    intro a ha acc
    have h7 : a ≠ 6 := by
      rcases List.mem_range'.mp ha with ⟨i, hi, rfl⟩
      omega
    have hq : ((exec_undefined m).exc.exceptions a).pending = false := by
      rw [hne a h7]
      exact hpend a
    simp [pending_step, hq]
  have hskip2 : ∀ a ∈ List.range' 7 159, ∀ acc,
      pending_step (exec_undefined m).exc acc a = acc := by
    intro a ha acc
    have h7 : a ≠ 6 := by
      rcases List.mem_range'.mp ha with ⟨i, hi, rfl⟩
      omega
    have hq : ((exec_undefined m).exc.exceptions a).pending = false := by
      rw [hne a h7]
      exact hpend a
    simp [pending_step, hq]
  refine ⟨?_, ?_, ?_, ?_⟩
  · rw [h6]
  · rw [hne 3 (by omega)]
    exact hpend 3
  · intro hen
    simp only [get_pending_exception, hep, hsplit, List.foldl_append, List.foldl_cons]
    rw [foldl_id_of_skip _ _ _ hskip1]
    have hstep : pending_step (exec_undefined m).exc (none, 256) 6
        = (some 6, (m.exc.exceptions 6).priority) := by
      simp [pending_step, h6, hen, hpri]
    rw [hstep, foldl_id_of_skip _ _ _ hskip2]
  · intro hen
    simp only [get_pending_exception, hep, hsplit, List.foldl_append, List.foldl_cons]
    rw [foldl_id_of_skip _ _ _ hskip1]
    have hstep : pending_step (exec_undefined m).exc (none, 256) 6 = (none, 256) := by
      simp [pending_step, h6, hen]
    rw [hstep, foldl_id_of_skip _ _ _ hskip2]

/-- Closed witness for c5_undefined_usagefault_escalation on the idle
machine (UsageFault disabled by default): the fault is pended but never
selected. -/
theorem c5_undefined_usagefault_escalation_witness :
    ((exec_undefined c5_machine).exc.exceptions 6).pending = true ∧
    get_pending_exception (exec_undefined c5_machine).exc (exec_undefined c5_machine).regs
      = none := by
  have h := c5_undefined_usagefault_escalation c5_machine
    (fun n => init_state_not_pending n) (fun n => init_state_not_active n)
    (by decide) (by decide) (by decide) (by decide)
  exact ⟨h.1, h.2.2.2 (by decide)⟩

/- =====================================================================
   C9: the AES-CTR counter block layout
   ===================================================================== -/

theorem or_mul_add {k b : Nat} (i : Nat) (hb : b < 2 ^ i) :
    (k * 2 ^ i) ||| b = k * 2 ^ i + b := by
  calc (k * 2 ^ i) ||| b = (2 ^ i * k) ||| b := by rw [Nat.mul_comm]
    _ = 2 ^ i * k + b := (Nat.mul_add_lt_is_or hb k).symm
    _ = k * 2 ^ i + b := by rw [Nat.mul_comm]

/-- C9: for every read address a inside the configured region, with the
region start 16-byte aligned (as configured on the hardware) and the
block number within its 42-bit field, the counter block used for
decryption is the big-endian concatenation
nonce(64) || version(16) || region(2) || block_number(42) || counter(4),
with counter 0 and block_number = (aligned_address - start) / 16 for
the enclosing 16-byte-aligned address. -/
theorem c9_ctr_counter_block_layout (nw0 nw1 ver reg s e a : Nat)
    (hs16 : s % 16 = 0) (hsa : s ≤ a) (hae : a ≤ e)
    (hbn : (a - a % 16 - s) / 16 < 2 ^ 42) :
    ctr_is_in_region (configure_ctr nw0 nw1 ver reg s e) a ∧
    ctr_counter_for_read (configure_ctr nw0 nw1 ver reg s e) a
      = (nw0 * 2 ^ 32 + nw1) * 2 ^ 64 + (ver &&& 0xFFFF) * 2 ^ 48
        + (reg &&& 0x3) * 2 ^ 46 + ((a - a % 16 - s) / 16) * 2 ^ 4 := by
  have hver : (ver &&& 0xFFFF) < 2 ^ 16 := by
    have h16 : (0xFFFF : Nat) = 2 ^ 16 - 1 := by norm_num
    rw [h16, Nat.and_pow_two_sub_one_eq_mod]
    exact Nat.mod_lt _ (by norm_num)
  have hreg : (reg &&& 0x3) < 2 ^ 2 := by
    have h2 : (0x3 : Nat) = 2 ^ 2 - 1 := by norm_num
    rw [h2, Nat.and_pow_two_sub_one_eq_mod]
    exact Nat.mod_lt _ (by norm_num)
  constructor
  · exact ⟨hsa, hae⟩
  · simp only [ctr_counter_for_read, build_counter_block, configure_ctr]
    set diff := a - a % 16 - s with hdiff
    have hd16 : diff % 16 = 0 := by omega
    have hoffset : diff - diff % 16 = diff := by omega
    rw [hoffset]
    have hshift : diff >>> 4 = diff / 16 := by
      rw [Nat.shiftRight_eq_div_pow]
    rw [hshift]
    have hmask42 : (diff / 16) &&& 0x3FFFFFFFFFF = diff / 16 := by
      have h42 : (0x3FFFFFFFFFF : Nat) = 2 ^ 42 - 1 := by norm_num
      rw [h42, Nat.and_pow_two_sub_one_eq_mod, Nat.mod_eq_of_lt hbn]
    rw [hmask42]
    have hvv : (ver &&& 0xFFFF) &&& 0xFFFF = ver &&& 0xFFFF := by
      have hc : (0xFFFF &&& 0xFFFF : Nat) = 0xFFFF := by decide
      rw [Nat.and_assoc, hc]
    have hrr : (reg &&& 0x3) &&& 0x3 = reg &&& 0x3 := by
      have hc : (0x3 &&& 0x3 : Nat) = 0x3 := by decide
      rw [Nat.and_assoc, hc]
    rw [hvv, hrr]
    rw [Nat.shiftLeft_eq, Nat.shiftLeft_eq, Nat.shiftLeft_eq]
    have h1 : ((ver &&& 0xFFFF) * 2 ^ 48) ||| ((reg &&& 0x3) * 2 ^ 46)
        = (ver &&& 0xFFFF) * 2 ^ 48 + (reg &&& 0x3) * 2 ^ 46 :=
      or_mul_add 48 (by omega)
    rw [h1]
    have h2 : (ver &&& 0xFFFF) * 2 ^ 48 + (reg &&& 0x3) * 2 ^ 46
        = ((ver &&& 0xFFFF) * 4 + (reg &&& 0x3)) * 2 ^ 46 := by ring
    rw [h2]
    have h3 : (((ver &&& 0xFFFF) * 4 + (reg &&& 0x3)) * 2 ^ 46) ||| (diff / 16 * 2 ^ 4)
        = ((ver &&& 0xFFFF) * 4 + (reg &&& 0x3)) * 2 ^ 46 + diff / 16 * 2 ^ 4 :=
      or_mul_add 46 (by omega)
    rw [h3]
    ring

/-- Closed witness for c9_ctr_counter_block_layout on the real region
base 0x90000000 with a sample key-info configuration. -/
theorem c9_ctr_counter_block_layout_witness :
    ctr_is_in_region (configure_ctr 0x01234567 0x89ABCDEF 0xCAFE 2 0x90000000 0x900FDFFF)
      0x90000123 ∧
    ctr_counter_for_read (configure_ctr 0x01234567 0x89ABCDEF 0xCAFE 2 0x90000000 0x900FDFFF)
      0x90000123
      = (0x01234567 * 2 ^ 32 + 0x89ABCDEF) * 2 ^ 64 + (0xCAFE &&& 0xFFFF) * 2 ^ 48
        + (2 &&& 0x3) * 2 ^ 46
        + ((0x90000123 - 0x90000123 % 16 - 0x90000000) / 16) * 2 ^ 4 :=
  c9_ctr_counter_block_layout 0x01234567 0x89ABCDEF 0xCAFE 2 0x90000000 0x900FDFFF
    0x90000123 (by norm_num) (by norm_num) (by norm_num) (by norm_num)

/- =====================================================================
   C10: unaligned CPU memory accesses
   ===================================================================== -/

theorem and_fffffffc_eq {a : Nat} (h : a < 2 ^ 32) : a &&& 0xFFFFFFFC = 4 * (a / 4) := by
  apply Nat.eq_of_testBit_eq
  intro i
  have hmask : (0xFFFFFFFC : Nat) = (2 ^ 30 - 1) <<< 2 := by
    rw [Nat.shiftLeft_eq]
    norm_num
  have hrhs : 4 * (a / 4) = (a >>> 2) <<< 2 := by
    rw [Nat.shiftLeft_eq, Nat.shiftRight_eq_div_pow]
    norm_num
    omega
  rw [Nat.testBit_and, hmask, Nat.testBit_shiftLeft, hrhs, Nat.testBit_shiftLeft,
    Nat.testBit_shiftRight, Nat.testBit_two_pow_sub_one]
  by_cases h2 : 2 ≤ i
  · have hi : 2 + (i - 2) = i := by omega
    by_cases h30 : i - 2 < 30
    · simp [h2, h30, hi, ge_iff_le]
    · have hge : 32 ≤ i := by omega
      have hfalse : a.testBit i = false :=
        Nat.testBit_lt_two_pow (lt_of_lt_of_le h (Nat.pow_le_pow_right (by norm_num) hge))
      simp [h2, h30, hi, hfalse, ge_iff_le]
  · simp [h2, ge_iff_le]

theorem and_fffffffc_idem (a : Nat) : (a &&& 0xFFFFFFFC) &&& 0xFFFFFFFC = a &&& 0xFFFFFFFC := by
  rw [Nat.and_assoc, Nat.and_self]

theorem and_fffffffe_idem (a : Nat) : (a &&& 0xFFFFFFFE) &&& 0xFFFFFFFE = a &&& 0xFFFFFFFE := by
  rw [Nat.and_assoc, Nat.and_self]

theorem and_ff_eq_mod (x : Nat) : x &&& 0xFF = x % 2 ^ 8 := by
  have h : (0xFF : Nat) = 2 ^ 8 - 1 := by norm_num
  rw [h, Nat.and_pow_two_sub_one_eq_mod]

/-- C10: every 32-bit CPU access through the bus is performed at the
aligned address a and 0xFFFFFFFC and every 16-bit access at
a and 0xFFFFFFFE: an unaligned word read equals the read at the
enclosing aligned address and returns the little-endian word stored
there; an unaligned word write equals the write at the aligned address,
and writing then reading back (at the unaligned address) returns the
written word; no DTCM access in range returns the fault marker none. -/
theorem c10_unaligned_access_alignment (data : Nat → Nat) (a v : Nat)
    (hlo : 0x20000000 ≤ a) (hhi : a < 0x20020000) :
    cpu_read32_dtcm data a = cpu_read32_dtcm data (a &&& 0xFFFFFFFC) ∧
    cpu_read32_dtcm data a
      = (ram_read32 (dtcm_region data) (a &&& 0xFFFFFFFC)).map (fun w => w &&& 0xFFFFFFFF) ∧
    (∃ w, cpu_read32_dtcm data a = some w) ∧
    cpu_read16_dtcm data a = cpu_read16_dtcm data (a &&& 0xFFFFFFFE) ∧
    cpu_write32_dtcm data a v = cpu_write32_dtcm data (a &&& 0xFFFFFFFC) v ∧
    (∃ d2, cpu_write32_dtcm data a v = some d2 ∧
      cpu_read32_dtcm d2 a = some (v &&& 0xFFFFFFFF)) := by
  have ha32 : a < 2 ^ 32 := by
    have h : (0x20020000 : Nat) < 2 ^ 32 := by norm_num
    omega
  have ha4 : a &&& 0xFFFFFFFC = 4 * (a / 4) := and_fffffffc_eq ha32
  have hal : 0x20000000 ≤ a &&& 0xFFFFFFFC := by omega
  have hah : a &&& 0xFFFFFFFC < 0x20020000 := by omega
  have hcond : 0x20000000 ≤ a &&& 0xFFFFFFFC ∧ a &&& 0xFFFFFFFC < 0x20020000 := ⟨hal, hah⟩
  refine ⟨?_, ?_, ?_, ?_, ?_, ?_⟩
  · simp only [cpu_read32_dtcm, bus_read32_dtcm, and_fffffffc_idem]
  · simp only [cpu_read32_dtcm, bus_read32_dtcm, and_fffffffc_idem]
    rw [if_pos hcond]
  · simp only [cpu_read32_dtcm, bus_read32_dtcm, and_fffffffc_idem]
    rw [if_pos hcond]
    simp only [ram_read32, ram_offset, dtcm_region]
    rw [if_neg (by omega), if_neg (by omega), Option.some_bind, if_pos (by omega)]
    exact ⟨_, rfl⟩
  · simp only [cpu_read16_dtcm, bus_read16_dtcm, and_fffffffe_idem]
  · simp only [cpu_write32_dtcm, bus_write32_dtcm, and_fffffffc_idem]
  · simp only [cpu_write32_dtcm, bus_write32_dtcm, cpu_read32_dtcm, bus_read32_dtcm,
      and_fffffffc_idem]
    rw [if_pos hcond]
    simp only [ram_write32, ram_read32, ram_offset, dtcm_region]
    rw [if_neg (by omega), if_neg (by omega), Option.some_bind, if_pos (by omega)]
    rw [Option.map_some']
    refine ⟨_, rfl, ?_⟩
    rw [if_pos hcond]
    dsimp only
    rw [Option.some_bind, if_pos (by omega)]
    rw [Option.map_some']
    simp only [Option.some.injEq]
    simp [upd]
    simp only [and_ffffffff_eq_mod, and_ff_eq_mod, Nat.shiftRight_eq_div_pow,
      Nat.shiftLeft_eq]
    omega

/-- Closed witness for c10_unaligned_access_alignment at the unaligned
DTCM address 0x20000001. -/
theorem c10_unaligned_access_alignment_witness :
    cpu_read32_dtcm (fun _ => 0) 0x20000001
      = cpu_read32_dtcm (fun _ => 0) (0x20000001 &&& 0xFFFFFFFC) ∧
    (∃ d2, cpu_write32_dtcm (fun _ => 0) 0x20000001 0xDEADBEEF = some d2 ∧
      cpu_read32_dtcm d2 0x20000001 = some (0xDEADBEEF &&& 0xFFFFFFFF)) := by
  have h := c10_unaligned_access_alignment (fun _ => 0) 0x20000001 0xDEADBEEF
    (by norm_num) (by norm_num)
  exact ⟨h.1, h.2.2.2.2.2⟩
